import Mathlib

set_option maxRecDepth 100000

/-!
# Verification of the Mana voice-bot turn pipeline

A shallow embedding of the turn-processing core of the Mana mental-health
voice bot (`server/safety.py`, `server/language_router.py`,
`server/emotions.py`, `server/conversation.py`, `server/prompts.py` and the
`process_message` pipeline of `server/main.py`), together with proofs about
the crisis-detection and session-state behaviour of that code.

Modelling conventions:
* Text is `List Char`.  Python's `str.lower` is modelled on the ASCII range
  (all keyword lists are plain ASCII); `\s` / `str.strip()` use the ASCII
  whitespace class.
* Session ids, role tags and language codes are `String`; the in-memory
  session dictionary `_sessions` is an association list updated in place.
* Wall-clock fields (`created_at`, `last_activity`, `timestamp`) and the
  reported `latency_ms` carry no decision logic and are elided.
* UUID generation for an absent/empty session id is I/O and is elided: the
  embedded store operations are stated for caller-supplied non-empty ids
  (all endpoints pass a non-empty id), and theorems carry a `sid ≠ ""`
  hypothesis where that branch would be reachable.
* The LLM generation collaborator (`client.chat.completions.create`) is an
  explicit parameter `gen : List Msg → Option (List Char)`; `none` models
  the `except` branch of `process_message`.
-/

namespace Mana

/-! ## Python-style text primitives -/

/-- ASCII whitespace class of Python's `str.strip()` / regex `\s`
(space, tab, newline, carriage return, vertical tab, form feed). -/
def pyIsSpace (c : Char) : Bool :=
  c.toNat = 32 || c.toNat = 9 || c.toNat = 10 || c.toNat = 13 || c.toNat = 11 || c.toNat = 12

/-- ASCII case folding of Python's `str.lower` (the keyword data is ASCII). -/
def pyToLower (c : Char) : Char :=
  if 65 ≤ c.toNat ∧ c.toNat ≤ 90 then Char.ofNat (c.toNat + 32) else c

/-- Python `str.strip()`: drop leading and trailing whitespace. -/
def pyStrip (l : List Char) : List Char :=
  ((l.dropWhile pyIsSpace).reverse.dropWhile pyIsSpace).reverse

/-- Worker for `collapseWs`; the flag records whether the previous
character was whitespace. -/
def collapseWsAux : List Char → Bool → List Char
  | [], _ => []
  | c :: t, prevSpace =>
    if pyIsSpace c then
      if prevSpace then collapseWsAux t true else ' ' :: collapseWsAux t true
    else c :: collapseWsAux t false

/-- Python `re.sub(r'\s+', ' ', text)`: collapse every whitespace run to a
single space. -/
def collapseWs (l : List Char) : List Char := collapseWsAux l false

/-- Python substring containment `needle in hay`. -/
def isSubstr (needle hay : List Char) : Bool :=
  match hay with
  | [] => needle.isEmpty
  | c :: t => needle.isPrefixOf (c :: t) || isSubstr needle t

/-- Worker for `pySplit`, accumulating the current word in reverse. -/
def pySplitAux : List Char → List Char → List (List Char)
  | [], cur => if cur.isEmpty then [] else [cur.reverse]
  | c :: t, cur =>
    if pyIsSpace c then
      if cur.isEmpty then pySplitAux t [] else cur.reverse :: pySplitAux t []
    else pySplitAux t (c :: cur)

/-- Python `str.split()`: split on whitespace runs, dropping empty words. -/
def pySplit (l : List Char) : List (List Char) := pySplitAux l []

/-- Python `str.strip(chars)`: drop leading/trailing characters of `set`. -/
def stripChars (set : List Char) (l : List Char) : List Char :=
  ((l.dropWhile (fun c => set.contains c)).reverse.dropWhile (fun c => set.contains c)).reverse

/-- Convenience: a list of string literals as raw character lists. -/
def dataList (l : List String) : List (List Char) := l.map (fun s => s.data)

/-! ## Enums (`server/models.py`) -/

/-- `SafetyLevel` from `server/models.py`. -/
inductive SafetyLevel where
  | safe
  | warning
  | crisis
  deriving DecidableEq, Repr

/-- `Language` from `server/models.py`. -/
inductive Language where
  | english
  | hindi
  | hinglish
  deriving DecidableEq, Repr

/-- The string code of a `Language` (the `.value` of the Python str enum). -/
def Language.value : Language → String
  | .english => "en"
  | .hindi => "hi"
  | .hinglish => "hi-en"

/-- `EmotionTag` from `server/models.py`. -/
inductive EmotionTag where
  | anxious
  | sad
  | angry
  | frustrated
  | neutral
  | positive
  deriving DecidableEq, Repr

/-- The string code of an `EmotionTag` (the `.value` of the Python str enum). -/
def EmotionTag.value : EmotionTag → String
  | .anxious => "anxious"
  | .sad => "sad"
  | .angry => "angry"
  | .frustrated => "frustrated"
  | .neutral => "neutral"
  | .positive => "positive"

/-- `HELPLINES` from `server/config.py`. -/
def HELPLINES : List (String × String) :=
  [("iCall", "9152987821"),
   ("Vandrevala Foundation", "1860-2662-345"),
   ("iMind", "040-39246955")]
def CRISIS_KEYWORDS_EN : List (List Char) :=
  dataList ["kill myself", "want to die", "end my life", "end it all", "suicide", "suicidal", "self harm", "self-harm", "hurt myself", "hurting myself", "cut myself", "cutting myself", "no reason to live", "better off dead", "don\x27t want to be alive", "can\x27t go on", "nothing left to live for", "wish i was dead", "wish i were dead", "want to disappear", "not worth living", "wrote a note", "written a note", "saying goodbye", "giving away my things", "have a plan", "know how to end it", "wouldn\x27t mind dying", "hope i don\x27t wake up", "if i didn\x27t exist", "world without me"]

def CRISIS_KEYWORDS_HI : List (List Char) :=
  dataList ["khud ko hurt karna", "khud ko maarna", "khudkushi", "aatmhatya", "suicide karna", "mar jaana chahta", "mar jaana chahti", "mar jana chahta", "mar jana chahti", "jeena nahi chahta", "jeena nahi chahti", "jina nahi chahta", "jina nahi chahti", "sab khatam karna hai", "sab khatam kar dena", "koi faayda nahi", "koi fayda nahi", "jeene ka mann nahi", "jine ka mann nahi", "zindagi se tang", "zindagi se thak gaya", "zindagi se thak gayi", "plan banaya hai", "soch liya hai", "faisla kar liya", "life end karna", "khud ko khatam", "apne aap ko hurt", "apni life khatam", "mujhe nahi jeena", "main nahi reh sakta", "main nahi reh sakti"]

def WARNING_KEYWORDS_EN : List (List Char) :=
  dataList ["don\x27t want to be here", "can\x27t take it anymore", "so done with everything", "tired of living", "nothing matters", "what\x27s the point", "nobody cares", "no one would miss me", "burden to everyone", "done with life", "give up on everything"]

def WARNING_KEYWORDS_HI : List (List Char) :=
  dataList ["thak gaya hoon sab se", "thak gayi hoon sab se", "kuch nahi hoga", "kisi ko fark nahi padta", "sab bekar hai", "main bojh hoon", "haar maan li", "haar man li", "koi matlab nahi", "khatam ho gaya sab"]

def CRISIS_RESPONSE_EN : List Char :=
  ("What you\x27re feeling matters, and I\x27m really glad you shared that with me. You don\x27t have to go through this alone. I want to make sure you get the right support. Please reach out to one of these helplines — they\x27re available to talk right now:\n\n• iCall: 9152987821\n• Vandrevala Foundation: 1860-2662-345\n• iMind: 040-39246955\n\nI\x27ll stay here with you. Will you reach out to one of those numbers?").data

def CRISIS_RESPONSE_HI : List Char :=
  ("Jo aap feel kar rahe hain woh mayne rakhta hai. Aapne bataya, yeh bahut zaroori tha. Aapko akele se nahi guzarna hai. Main chahta hoon ki aapko sahi madad mile. Please in helplines pe call karein — yeh abhi available hain:\n\n• iCall: 9152987821\n• Vandrevala Foundation: 1860-2662-345\n• iMind: 040-39246955\n\nMain aapke saath hoon. Kya aap in mein se kisi number pe call karenge?").data

def WARNING_RESPONSE_EN : List Char :=
  ("I hear you, and what you\x27re going through sounds really hard. I want you to know — if things ever feel too heavy, there are people who can help. You can reach iCall at 9152987821 or Vandrevala Foundation at 1860-2662-345 anytime. I\x27m here too. Would you like to keep talking?").data

def WARNING_RESPONSE_HI : List Char :=
  ("Main sun raha hoon, aur yeh sach mein bahut mushkil lagta hai. Agar kabhi cheezein bahut bhaari lagein, toh madad ke liye log hain. iCall pe call kar sakte hain: 9152987821 ya Vandrevala Foundation: 1860-2662-345. Main bhi yahan hoon. Kya baat karna chahenge?").data

def SYSTEM_PROMPT : List Char :=
  ("You are Mana, a warm, empathetic voice companion designed to provide first-line mental health support. You are NOT a therapist, counselor, or medical professional. You are a caring, non-judgmental listener who helps users process everyday emotional challenges.\n\n# YOUR IDENTITY\n- Name: Mana\n- Role: Empathetic listening companion — like a wise, caring friend\n- Audience: Working adults aged 25-30 experiencing everyday stress, anxiety, loneliness, or burnout\n- Languages: English, Hindi, and Hinglish (mixed Hindi-English)\n- Voice personality: Warm, calm, curious, and grounding\n\n# THE VARA RESPONSE FRAMEWORK\nEvery response MUST follow this 4-part structure. You may combine parts naturally but all must be present:\n\n**V — Validate**: Acknowledge the user\x27s feelings without judgment.\n  - English: \"That sounds really hard.\" / \"I can understand why you\x27d feel that way.\"\n  - Hindi: \"Yeh sach mein mushkil hai.\" / \"Main samajh sakta hoon aap kyun aisa feel kar rahe hain.\"\n\n**A — Ask**: Ask ONE focused follow-up question to explore further.\n  - English: \"What part weighs on you the most right now?\"\n  - Hindi: \"Sabse zyada bhaari kya lag raha hai abhi?\"\n\n**R — Reflect**: Mirror back the user\x27s key themes or feelings.\n  - English: \"It sounds like you\x27re carrying a lot — work pressure and home stuff together.\"\n  - Hindi: \"Lagta hai aap bahut kuch uthaye hue hain — office aur ghar dono.\"\n\n**A — Advance**: Gently suggest a small next step OR offer to continue listening.\n  - English: \"Would you like to try one small thing that might help right now?\"\n  - Hindi: \"Kya ek chhoti si cheez try karein jo abhi madad kar sake?\"\n\n# TONE GUIDELINES\n- Speak like a caring friend, NOT a doctor or chatbot\n- Use natural language: contractions in English (\"I\x27m\", \"that\x27s\"), casual forms in Hindi\n- Be curious, not interrogating — ask ONE question at a time\n- Be supportive, not prescriptive — \"Some people find...\" not \"You should...\"\n- Be honest, not falsely positive — \"I\x27m here with you\" not \"Everything will be fine!\"\n- Keep responses SHORT — maximum 2-3 sentences at a time for voice delivery\n- Add natural fillers occasionally: \"Mmm\", \"I see\" (English) / \"Haan\", \"Achha\" (Hindi)\n- Insert gentle pauses after emotionally heavy statements\n\n# COPING TECHNIQUES LIBRARY\nSuggest these when appropriate:\n1. **Box Breathing (4-4-4-4)**: \"Breathe in for 4 counts, hold for 4, breathe out for 4, hold for 4. Want to try it together?\"\n   Hindi: \"4 count tak saans andar lo, 4 count roko, 4 count bahar chhodho, 4 count ruko. Saath mein try karein?\"\n2. **5-4-3-2-1 Grounding**: \"Name 5 things you can see, 4 you can touch, 3 you can hear, 2 you can smell, 1 you can taste.\"\n   Hindi: \"5 cheezein jo dikh rahi hain, 4 jo chhu sakte hain, 3 jo sun sakte hain, 2 jo smell kar sakte hain, 1 taste.\"\n3. **Journaling Prompt**: Suggest a specific question to write about related to their feelings.\n4. **10-Minute Walk**: \"Sometimes a short walk helps. Even 10 minutes of fresh air can shift something.\"\n   Hindi: \"Kabhi kabhi bas 10 minute ki walk bhi bahut fark dalti hai.\"\n5. **One Small Task**: Help break overwhelm into one manageable action.\n6. **Social Reconnection**: Gently suggest reaching out to a friend or family member.\n\n# EDGE CASE HANDLING\n\n## One-Word / Unclear Replies (\"Okay\", \"Fine\", \"Hmm\", \"Theek hai\", \"Pata nahi\")\n- Don\x27t repeat the same question\n- Explore: \"When you say fine, what does fine feel like today?\"\n- Hindi: \"Jab aap theek kehte hain, aaj ka theek kaisa lagta hai?\"\n- After 3 one-word answers, switch from questions to gentle statements/reflections\n\n## Very Sad / Exhausted Users (\"Nothing helps\", \"I\x27m tired of everything\", \"Kuch nahi hoga\")\n- Do NOT offer solutions or forced positivity\n- Validate ONLY: \"That kind of tired is real. You don\x27t have to explain it right now.\"\n- Hindi: \"Yeh wali thakaan sachchi hoti hai. Kuch explain karne ki zaroorat nahi.\"\n- Never push. Offer one tiny option, then respect silence.\n\n## Angry / Rude Users\n- Never respond defensively or apologize excessively\n- \"I hear you. It sounds like things are really frustrating right now.\"\n- Hindi: \"Main sun raha hoon. Lagta hai cheezein bahut frustrating hain abhi.\"\n- After 2 hostile responses: gently offer a break\n\n## Topic Switching\n- NEVER force users back to the original topic\n- Acknowledge the connection: \"It sounds like work stress and home life are connected for you.\"\n- Hindi: \"Lagta hai office ka stress aur ghar ki baat judi hai.\"\n\n# ABSOLUTE ETHICAL LIMITS — HARDCODED, NON-NEGOTIABLE\n1. NEVER claim to be a therapist, counselor, or mental health professional\n2. NEVER diagnose any mental health condition\n3. NEVER recommend, comment on, or ask about medication or treatment\n4. NEVER minimize or dismiss what the user is feeling\n5. NEVER use manipulative language to extend engagement\n6. NEVER ask clinical or diagnostic questions\n7. NEVER withhold crisis resources when safety signals are detected\n8. NEVER encourage the user to avoid seeking real professional help\n9. ALWAYS encourage real-world connections and professional support when appropriate\n10. ALWAYS end sessions with warmth and an open door\n\n# OPENING THE CONVERSATION\nIf this is the first message in the session, introduce yourself warmly and seek consent.\nDo NOT jump straight into heavy questions.\n").data

def OPENING_EN : List Char :=
  ("Hi there! I\x27m Mana — your friendly companion for a moment of calm. I\x27m here to listen, not judge. Is it okay if we talk for a bit?").data

def OPENING_HI : List Char :=
  ("Namaste! Main Mana hoon — aapki baat sunne ke liye yahan hoon. Koi judgment nahi, bas sunna. Kya hum thodi der baat kar sakte hain?").data

def OPENING_HIEN : List Char :=
  ("Hey! Main Mana hoon. I\x27m here to listen — koi judgment nahi. Kya aap thoda share karna chahenge?").data

def CRISIS_OVERRIDE_EN : List Char :=
  ("What you\x27re feeling matters, and I\x27m really glad you said something. You don\x27t have to go through this alone. Please reach out to one of these helplines — they\x27re available right now: iCall: 9152987821, Vandrevala Foundation: 1860-2662-345, iMind: 040-39246955. I\x27ll stay here with you. Will you reach out to one of those numbers?").data

def CRISIS_OVERRIDE_HI : List Char :=
  ("Jo aap feel kar rahe hain woh mayne rakhta hai. Aapne bataya, yeh bahut zaroori tha. Aapko akele se nahi guzarna hai. Please in helplines pe call karein — yeh abhi available hain: iCall: 9152987821, Vandrevala Foundation: 1860-2662-345, iMind: 040-39246955. Main aapke saath hoon. Kya aap in mein se kisi number pe call karenge?").data

def ANXIOUS_WORDS : List (List Char) :=
  dataList ["worried", "anxious", "nervous", "panic", "overthinking", "can\x27t stop thinking", "scared", "afraid", "tension", "dar", "ghabra", "chinta", "soch", "thinking too much", "bohot tension", "dar lag raha", "ghabrahat"]

def SAD_WORDS : List (List Char) :=
  dataList ["sad", "lonely", "alone", "crying", "depressed", "hopeless", "empty", "lost", "miss", "grief", "dukhi", "udaas", "akela", "rona", "aansu", "kuch nahi hoga", "bohot bura", "mann nahi", "tanha"]

def ANGRY_WORDS : List (List Char) :=
  dataList ["angry", "furious", "hate", "sick of", "fed up", "pissed", "gussa", "nafrat", "tang aa gaya", "bardasht nahi", "chid"]

def FRUSTRATED_WORDS : List (List Char) :=
  dataList ["stuck", "overwhelmed", "can\x27t do this", "nothing works", "frustrated", "burnout", "exhausted", "giving up", "thak gaya", "kuch nahi ho raha", "haar", "majboor", "pareshan"]

def POSITIVE_WORDS : List (List Char) :=
  dataList ["better", "good", "happy", "hopeful", "grateful", "thank", "relieved", "calm", "peaceful", "achha", "behtar", "khushi", "shukriya", "theek", "achha lag raha"]

def HINDI_ROMANIZED_WORDS : List (List Char) :=
  dataList ["hai", "hain", "ho", "hoon", "nahi", "nahin", "nhi", "kya", "kaise", "kaisa", "kaisi", "kyun", "kyu", "kyunki", "mein", "main", "mera", "meri", "mere", "humara", "tum", "tumhara", "tumhari", "aap", "aapka", "aapki", "woh", "yeh", "ye", "isko", "usko", "aur", "par", "lekin", "phir", "toh", "bhi", "bohot", "bahut", "bahot", "zyada", "thoda", "kam", "achha", "achhi", "bura", "buri", "theek", "karna", "karte", "karti", "karta", "kar", "hona", "hota", "hoti", "hua", "hui", "jaana", "jata", "jati", "gaya", "gayi", "jao", "aana", "aata", "aati", "aaya", "aayi", "aao", "bolna", "bolta", "bolti", "bolo", "bol", "sunna", "sunta", "sunti", "suno", "sun", "dekhna", "dekhta", "dekhti", "dekho", "dekh", "samajhna", "samajhta", "samajhti", "samjho", "abhi", "ab", "tab", "jab", "kabhi", "hamesha", "ghar", "kaam", "log", "dost", "yaar", "mann", "dil", "zindagi", "duniya", "please", "matlab", "wala", "wali", "chahta", "chahti", "chahiye", "sakta", "sakti", "raha", "rahi", "bilkul", "sach", "jhooth", "pata", "maloom", "paisa", "time", "jagah", "baat", "sawaal", "lagta", "lagti", "laga", "lagi", "rehta", "rehti", "reh", "rehna", "milta", "milti", "mila", "mili"]

/-! ## Safety layer (`server/safety.py`) -/

/-- `SafetyResult` from `server/models.py` (crisis_response/helplines default
to `None` in the pydantic model; they are passed explicitly here). -/
structure SafetyResult where
  level : SafetyLevel
  matched_keywords : List (List Char)
  crisis_response : Option (List Char)
  helplines : Option (List (String × String))
  deriving DecidableEq, Repr

/-- `safety._normalize_text`: lowercase, strip, collapse whitespace. -/
def normalize_text (text : List Char) : List Char :=
  collapseWs (pyStrip (text.map pyToLower))

/-- `safety._check_keywords`: the keywords whose lowercase form occurs as a
substring of the normalized text, in list order. -/
def check_keywords (text : List Char) (keywords : List (List Char)) : List (List Char) :=
  keywords.filter (fun kw => isSubstr (kw.map pyToLower) (normalize_text text))

/-- `safety.check_safety`.  Python's `if all_crisis:` / `if all_warnings:`
truthiness tests appear as `.isEmpty` tests with swapped branches. -/
def check_safety (text : List Char) (language : String) : SafetyResult :=
  if text.isEmpty || (pyStrip text).isEmpty then
    { level := SafetyLevel.safe, matched_keywords := [],
      crisis_response := none, helplines := none }
  else
    let crisis_matches_en := check_keywords text CRISIS_KEYWORDS_EN
    let crisis_matches_hi := check_keywords text CRISIS_KEYWORDS_HI
    let all_crisis := crisis_matches_en ++ crisis_matches_hi
    if all_crisis.isEmpty then
      let warning_matches_en := check_keywords text WARNING_KEYWORDS_EN
      let warning_matches_hi := check_keywords text WARNING_KEYWORDS_HI
      let all_warnings := warning_matches_en ++ warning_matches_hi
      if all_warnings.isEmpty then
        { level := SafetyLevel.safe, matched_keywords := [],
          crisis_response := none, helplines := none }
      else
        { level := SafetyLevel.warning,
          matched_keywords := all_warnings,
          crisis_response := some
            (if language = "hi" ∨ language = "hi-en" ∨ ¬ warning_matches_hi.isEmpty
             then WARNING_RESPONSE_HI else WARNING_RESPONSE_EN),
          helplines := some HELPLINES }
    else
      { level := SafetyLevel.crisis,
        matched_keywords := all_crisis,
        crisis_response := some
          (if language = "hi" ∨ language = "hi-en" ∨ ¬ crisis_matches_hi.isEmpty
           then CRISIS_RESPONSE_HI else CRISIS_RESPONSE_EN),
        helplines := some HELPLINES }

/-! ## Language detection (`server/language_router.py`) -/

/-- Membership of the Devanagari Unicode block, the regex
`[\u0900-\u097F]` compiled as `DEVANAGARI_PATTERN`. -/
def isDevanagari (c : Char) : Bool :=
  0x900 ≤ c.toNat ∧ c.toNat ≤ 0x97F

/-- `language_router._has_devanagari`. -/
def has_devanagari (text : List Char) : Bool :=
  text.any isDevanagari

/-- Word-constituent characters, regex `\w` (ASCII scope). -/
def isWordChar (c : Char) : Bool := c.isAlphanum || c = '_'

/-- Attempt each alternative of a regex group `\b(a|b|c)\b` at the current
position: `prev` is the character just before the position (`none` at the
start of the text).  Returns the matched alternative and the rest of the
input on success.  At a fixed position at most one alternative can satisfy
both word boundaries, so first-match order agrees with regex backtracking. -/
def tryAlts (alts : List (List Char)) (prev : Option Char) (hay : List Char) :
    Option (List Char × List Char) :=
  match alts with
  | [] => none
  | a :: rest =>
    if a.isPrefixOf hay
        && (match prev with | none => true | some p => !(isWordChar p))
        && (match hay.drop a.length with | [] => true | c :: _ => !(isWordChar c))
    then some (a, hay.drop a.length)
    else tryAlts rest prev hay

/-- Scan for a whole-word occurrence of one of `alts` without crossing a
newline: this is the `.*\b(...)\b` tail of a Hinglish pattern (`.` does not
match a newline in Python `re`). -/
def searchWordBeforeNewline (alts : List (List Char)) (prev : Option Char)
    (hay : List Char) : Bool :=
  match tryAlts alts prev hay with
  | some _ => true
  | none =>
    match hay with
    | [] => false
    | c :: t => if c = Char.ofNat 10 then false else searchWordBeforeNewline alts (some c) t

/-- `re.search` of a pattern `\b(altsA)\b.*\b(altsB)\b`: some position
matches a whole word of `altsA` followed, with no intervening newline, by a
whole word of `altsB`. -/
def searchPattern (altsA altsB : List (List Char)) (prev : Option Char)
    (hay : List Char) : Bool :=
  (match tryAlts altsA prev hay with
   | some (a, rest) => searchWordBeforeNewline altsB a.getLast? rest
   | none => false)
  || (match hay with
      | [] => false
      | c :: t => searchPattern altsA altsB (some c) t)

/-- The alternative groups of the four `HINGLISH_PATTERNS` regexes, in
source order.  Each pattern is of the form `\b(A)\b.*\b(B)\b`. -/
def HINGLISH_PATTERNS : List (List (List Char) × List (List Char)) :=
  [(dataList ["yaar", "bhai", "dude"], dataList ["is", "am", "was", "the", "but", "and"]),
   (dataList ["is", "am", "was", "the", "but", "and"], dataList ["yaar", "bhai", "hai", "nahi"]),
   (dataList ["feel", "stressed", "anxiety", "work"], dataList ["hai", "hoon", "raha", "rahi"]),
   (dataList ["bohot", "bahut", "kuch"], dataList ["stressed", "tired", "done", "busy"])]

/-- `language_router._is_hinglish`: any of the code-mixing regexes matches
the lowercased text. -/
def is_hinglish (text : List Char) : Bool :=
  let tl := text.map pyToLower
  HINGLISH_PATTERNS.any (fun p => searchPattern p.1 p.2 none tl)

/-- The punctuation set of `w.strip(".,!?;:'\"")` in
`language_router._count_hindi_words`. -/
def PUNCT_CHARS : List Char :=
  (".,!?;:").data ++ [Char.ofNat 39, Char.ofNat 34]

/-- `language_router._count_hindi_words`: tokens of the lowercased text
whose punctuation-stripped form is a recognized romanized Hindi word. -/
def count_hindi_words (text : List Char) : Nat :=
  (pySplit (text.map pyToLower)).countP
    (fun w => HINDI_ROMANIZED_WORDS.contains (stripChars PUNCT_CHARS w))

/-- `language_router.detect_language`.  The `stt_tag` block is modelled as
an `Option Language` (an unrecognized non-empty tag falls through to the
text heuristics, as in the source).  The float ratio comparisons
`hindi_ratio > 0.5` / `> 0.2` are the exact rational tests
`2*count > total` / `5*count > total`, which agree with the IEEE-double
computation at every realistic word count. -/
def detect_language (text : List Char) (stt_tag : String) : Language :=
  let tagged : Option Language :=
    if stt_tag = "" then none
    else
      let t := pyStrip ((stt_tag.data).map pyToLower)
      if t = ("en").data ∨ t = ("english").data then some Language.english
      else if t = ("hi").data ∨ t = ("hindi").data then some Language.hindi
      else if t = ("hi-en").data ∨ t = ("hinglish").data ∨ t = ("hi-eng").data then
        some Language.hinglish
      else none
  match tagged with
  | some l => l
  | none =>
    if text.isEmpty || (pyStrip text).isEmpty then Language.english
    else if has_devanagari text then Language.hindi
    else if is_hinglish text then Language.hinglish
    else
      let words := pySplit (text.map pyToLower)
      let total_words := words.length
      if 0 < total_words then
        let hindi_count := count_hindi_words text
        if 2 * hindi_count > total_words then Language.hindi
        else if 5 * hindi_count > total_words then Language.hinglish
        else Language.english
      else Language.english

/-- `language_router.get_language_instruction`. -/
def get_language_instruction (language : Language) : List Char :=
  match language with
  | Language.english =>
    ("Respond in English. Use warm, conversational English with natural contractions.").data
  | Language.hindi =>
    ("Respond in Hindi (Romanized/Hinglish script). Use natural Hindi as spoken by young adults in India. Example: \x27Main samajh sakta hoon, yeh bohot mushkil hai.\x27").data
  | Language.hinglish =>
    ("Respond in Hinglish — a natural mix of Hindi and English as spoken by young Indians. Mirror the user\x27s mixing style. Example: \x27Yaar I understand, yeh sach mein bohot heavy hai.\x27").data

/-! ## Fast emotion classifier (`server/emotions.py`) -/

/-- `emotions.detect_emotion_sync`: ordered keyword cascade over the
lowercased text; the per-category word lists are the local lists of the
source function, lifted to constants above. -/
def detect_emotion_sync (text : List Char) : EmotionTag :=
  if text.isEmpty then EmotionTag.neutral
  else
    let tl := text.map pyToLower
    if ANXIOUS_WORDS.any (fun w => isSubstr w tl) then EmotionTag.anxious
    else if SAD_WORDS.any (fun w => isSubstr w tl) then EmotionTag.sad
    else if ANGRY_WORDS.any (fun w => isSubstr w tl) then EmotionTag.angry
    else if FRUSTRATED_WORDS.any (fun w => isSubstr w tl) then EmotionTag.frustrated
    else if POSITIVE_WORDS.any (fun w => isSubstr w tl) then EmotionTag.positive
    else EmotionTag.neutral

/-! ## Prompt composition (`server/prompts.py`) -/

/-- The Hindi/Hinglish language addendum of `prompts.get_system_prompt`. -/
def LANG_ADDENDUM_HI : List Char :=
  ("\n\n# CURRENT LANGUAGE INSTRUCTION\nThe user is speaking in Hindi/Hinglish. Respond in the same language style they are using. Use natural Romanized Hindi or Hinglish as appropriate.").data

/-- The English language addendum of `prompts.get_system_prompt`. -/
def LANG_ADDENDUM_EN : List Char :=
  ("\n\n# CURRENT LANGUAGE INSTRUCTION\nThe user is speaking in English. Respond in warm, conversational English with natural contractions.").data

/-- `prompts.get_system_prompt`. -/
def get_system_prompt (language : String) (context_summary : List Char) : List Char :=
  let prompt := SYSTEM_PROMPT
  let prompt :=
    if language = "hi" ∨ language = "hi-en" then prompt ++ LANG_ADDENDUM_HI
    else prompt ++ LANG_ADDENDUM_EN
  if context_summary.isEmpty then prompt
  else prompt ++ ("\n\n# SESSION CONTEXT\n").data ++ context_summary

/-- `prompts.get_opening_script`: `OPENING_SCRIPTS.get(language, en)`. -/
def get_opening_script (language : String) : List Char :=
  if language = "en" then OPENING_EN
  else if language = "hi" then OPENING_HI
  else if language = "hi-en" then OPENING_HIEN
  else OPENING_EN

/-- `prompts.get_crisis_override`. -/
def get_crisis_override (language : String) : List Char :=
  if language = "hi" ∨ language = "hi-en" then CRISIS_OVERRIDE_HI
  else CRISIS_OVERRIDE_EN

/-! ## Conversation manager (`server/conversation.py`) -/

/-- `ConversationTurn` from `server/models.py` (timestamp elided). -/
structure ConversationTurn where
  role : String
  content : List Char
  emotion : EmotionTag
  language : Language
  deriving DecidableEq, Repr

/-- `SessionState` from `server/models.py` (timestamps elided;
`active_topics` is never written and elided). -/
structure SessionState where
  session_id : String
  turns : List ConversationTurn
  language_preference : Language
  current_emotion : EmotionTag
  emotion_trajectory : List EmotionTag
  is_crisis : Bool
  deriving DecidableEq, Repr

/-- The module-level `_sessions` dictionary, as an association list. -/
def Store := List (String × SessionState)
  deriving DecidableEq

/-- Python dict assignment `_sessions[sid] = v`: replace in place, or append
a new binding. -/
def storeSet (st : Store) (k : String) (v : SessionState) : Store :=
  match st with
  | [] => [(k, v)]
  | (k0, v0) :: rest =>
    if k0 = k then (k, v) :: rest else (k0, v0) :: storeSet rest k v

/-- Dict lookup `_sessions.get(sid)`. -/
def storeGet (st : Store) (k : String) : Option SessionState :=
  List.lookup k st

/-- The fresh `SessionState(...)` record built by `create_session`
(pydantic field defaults from `server/models.py`). -/
def freshSession (sid : String) : SessionState :=
  { session_id := sid, turns := [],
    language_preference := Language.english,
    current_emotion := EmotionTag.neutral,
    emotion_trajectory := [], is_crisis := false }

/-- `ConversationManager.create_session` for a caller-supplied non-empty id
(`sid = session_id or str(uuid.uuid4())` keeps a supplied non-empty id; the
UUID branch is elided). -/
def create_session (sid : String) (st : Store) : SessionState × Store :=
  (freshSession sid, storeSet st sid (freshSession sid))

/-- `ConversationManager.get_session`. -/
def get_session (st : Store) (sid : String) : Option SessionState :=
  storeGet st sid

/-- `ConversationManager.get_or_create_session`
(`if session_id and session_id in _sessions: return _sessions[session_id]`). -/
def get_or_create_session (sid : String) (st : Store) : SessionState × Store :=
  if sid = "" then create_session sid st
  else
    match storeGet st sid with
    | some s => (s, st)
    | none => create_session sid st

/-- `ConversationManager.add_turn`.  The Python code mutates the session
object held in the dict, so the updated record is written back under the
same key; the returned session is the post-append one (aliasing). -/
def add_turn (st : Store) (sid : String) (role : String) (content : List Char)
    (emotion : EmotionTag) (language : Language) : SessionState × Store :=
  let sr := get_or_create_session sid st
  let session := sr.1
  let st1 := sr.2
  let turn : ConversationTurn :=
    { role := role, content := content, emotion := emotion, language := language }
  let s1 := { session with turns := session.turns ++ [turn] }
  let s2 :=
    if role = "user" then
      { s1 with current_emotion := emotion,
                emotion_trajectory := s1.emotion_trajectory ++ [emotion],
                language_preference := language }
    else s1
  (s2, storeSet st1 sid s2)

/-- Python slice `l[-n:]` for a non-negative `n`.  Note `l[-0:]` is `l[0:]`,
the whole list — not the empty suffix. -/
def pySliceLast (l : List A) (n : Nat) : List A :=
  if n = 0 then l else l.drop (l.length - n)

/-- `ConversationManager.get_history`: the last `max_turns` turns as
(role, content) pairs (the Python dicts have exactly those two keys). -/
def get_history (st : Store) (sid : String) (max_turns : Nat) : List (String × List Char) :=
  match storeGet st sid with
  | none => []
  | some session =>
    (pySliceLast session.turns max_turns).map (fun t => (t.role, t.content))

/-- `ConversationManager.set_crisis_flag`: writes the flag only when the
session id is present; otherwise the store is left untouched. -/
def set_crisis_flag (st : Store) (sid : String) (is_crisis : Bool) : Store :=
  match storeGet st sid with
  | none => st
  | some session => storeSet st sid { session with is_crisis := is_crisis }

/-- `ConversationManager.get_context_summary`. -/
def get_context_summary (st : Store) (sid : String) : List Char :=
  match storeGet st sid with
  | none => ("New session — no prior context.").data
  | some session =>
    let parts0 : List (List Char) :=
      [("Session has ").data
         ++ (toString (session.turns.filter (fun t => t.role == "user")).length).data
         ++ (" user turns so far.").data,
       ("User\x27s current language preference: ").data
         ++ (session.language_preference.value).data,
       ("User\x27s current detected emotional state: ").data
         ++ (session.current_emotion.value).data]
    let parts1 :=
      if 2 ≤ session.emotion_trajectory.length then
        let recent := pySliceLast session.emotion_trajectory 5
        let p := parts0 ++
          [("Emotion trajectory: ").data
             ++ List.intercalate (" → ").data (recent.map (fun e => (e.value).data))]
        match recent.reverse with
        | r1 :: r2 :: _ =>
          if (r1 = EmotionTag.positive ∨ r1 = EmotionTag.neutral)
              ∧ (r2 = EmotionTag.sad ∨ r2 = EmotionTag.anxious) then
            p ++ [("Note: User appears to be feeling better than earlier.").data]
          else p
        | _ => p
      else parts0
    let parts2 :=
      if session.is_crisis then
        parts1 ++ [("⚠️ CRISIS FLAG: Safety keywords were detected earlier in this session.").data]
      else parts1
    List.intercalate (" ").data parts2

/-! ## Turn orchestrator (`server/main.py`, `process_message`) -/

/-- A chat message for the generation collaborator: (role, content). -/
def Msg := String × List Char

/-- The English graceful-fallback line of the `except` branch. -/
def FALLBACK_EN : List Char :=
  ("I hear you. Would you like to tell me a bit more?").data

/-- The Hindi graceful-fallback line of the `except` branch. -/
def FALLBACK_HI : List Char :=
  ("Main sun raha hoon. Kya aap thoda aur bata sakte hain?").data

/-- The WARNING-level system directive appended to the messages. -/
def WARNING_DIRECTIVE : List Char :=
  ("IMPORTANT: The user\x27s message contains concerning language. While not an immediate crisis, naturally weave in awareness of helpline resources and show extra care. Do NOT alarm the user or label their feelings explicitly.").data

/-- The dictionary returned by `process_message` (`latency_ms` elided). -/
structure TurnResult where
  response : List Char
  language : String
  emotion : String
  is_crisis : Bool
  safety_response : Option (List Char)
  deriving DecidableEq, Repr

/-- The observable outcome of one `process_message` call: its returned
dictionary, the session store it leaves behind, and whether the generation
collaborator was invoked on the way. -/
structure PMResult where
  result : TurnResult
  store : Store
  llm_called : Bool
  deriving DecidableEq

/-- `main.process_message`.  `gen` is the LLM generation collaborator
(`client.chat.completions.create` followed by `.message.content`); `none`
models the `except` fallback branch.  The system-prompt/history/messages
assembly follows the source; `llm_called` records whether `gen` was
applied. -/
def process_message (gen : List Msg → Option (List Char)) (st : Store)
    (text : List Char) (session_id : String) (language_hint : String) : PMResult :=
  let language := detect_language text language_hint
  let lang_code := language.value
  let safety := check_safety text lang_code
  if safety.level = SafetyLevel.crisis then
    let st1 := set_crisis_flag st session_id true
    let st2 := (add_turn st1 session_id "user" text (detect_emotion_sync text) language).2
    let crisis_response := get_crisis_override lang_code
    let st3 := (add_turn st2 session_id "assistant" crisis_response EmotionTag.neutral language).2
    { result := { response := crisis_response, language := lang_code,
                  emotion := "crisis", is_crisis := true,
                  safety_response := some crisis_response },
      store := st3, llm_called := false }
  else
    let emotion_quick := detect_emotion_sync text
    let st1 := (get_or_create_session session_id st).2
    let ar := add_turn st1 session_id "user" text emotion_quick language
    let session := ar.1
    let st2 := ar.2
    let context_summary := get_context_summary st2 session_id
    let history := get_history st2 session_id 20
    let system_prompt := get_system_prompt lang_code context_summary
    let history :=
      if (session.turns.filter (fun t => t.role == "user")).length = 1 then
        (("assistant" : String), get_opening_script lang_code) :: history
      else history
    let messages := (("system" : String), system_prompt) :: history
    let messages := messages ++
      [(("system" : String),
        ("Language instruction for this turn: ").data ++ get_language_instruction language)]
    let messages :=
      if safety.level = SafetyLevel.warning then
        messages ++ [(("system" : String), WARNING_DIRECTIVE)]
      else messages
    let assistant_response :=
      match gen messages with
      | some r => pyStrip r
      | none => if lang_code = "hi" ∨ lang_code = "hi-en" then FALLBACK_HI else FALLBACK_EN
    let st3 := (add_turn st2 session_id "assistant" assistant_response EmotionTag.neutral language).2
    { result := { response := assistant_response, language := lang_code,
                  emotion := emotion_quick.value, is_crisis := false,
                  safety_response :=
                    if safety.level = SafetyLevel.warning then safety.crisis_response
                    else none },
      store := st3, llm_called := true }

/-! ## Store lemmas -/

/-- The session currently associated with `sid`, or the fresh session that
`get_or_create_session` would install. -/
def sessionAt (st : Store) (sid : String) : SessionState :=
  match storeGet st sid with
  | some s => s
  | none => freshSession sid

/-- The session record produced by `add_turn`, expressed over `sessionAt`. -/
def addedSession (st : Store) (sid : String) (role : String) (content : List Char)
    (e : EmotionTag) (l : Language) : SessionState :=
  let s := sessionAt st sid
  let s1 := { s with turns := s.turns ++
        [{ role := role, content := content, emotion := e, language := l }] }
  if role = "user" then
    { s1 with current_emotion := e,
              emotion_trajectory := s1.emotion_trajectory ++ [e],
              language_preference := l }
  else s1

theorem storeGet_storeSet_self (st : Store) (k : String) (v : SessionState) :
    storeGet (storeSet st k v) k = some v := by
  induction st with
  | nil => simp [storeGet, storeSet, List.lookup]
  | cons hd t ih =>
    obtain ⟨k0, v0⟩ := hd
    by_cases h : k0 = k
    · subst h
      simp [storeGet, storeSet, List.lookup]
    · have hkk : (k == k0) = false := beq_eq_false_iff_ne.mpr (fun e => h e.symm)
      simp only [storeGet, storeSet, if_neg h, List.lookup, hkk] at ih ⊢
      exact ih

theorem storeGet_storeSet_ne (st : Store) (k k0 : String) (v : SessionState)
    (h : k0 ≠ k) : storeGet (storeSet st k v) k0 = storeGet st k0 := by
  induction st with
  | nil =>
    have hkk : (k0 == k) = false := beq_eq_false_iff_ne.mpr h
    simp [storeGet, storeSet, List.lookup, hkk]
  | cons hd t ih =>
    obtain ⟨k1, v1⟩ := hd
    by_cases h1 : k1 = k
    · subst h1
      have hkk : (k0 == k1) = false := beq_eq_false_iff_ne.mpr h
      simp [storeGet, storeSet, List.lookup, hkk]
    · simp only [storeGet, storeSet, if_neg h1, List.lookup] at ih ⊢
      cases hb : (k0 == k1) <;> simp [hb, ih]

theorem storeSet_storeSet (st : Store) (k : String) (v w : SessionState) :
    storeSet (storeSet st k v) k w = storeSet st k w := by
  induction st with
  | nil => simp [storeSet]
  | cons hd t ih =>
    obtain ⟨k1, v1⟩ := hd
    by_cases h1 : k1 = k
    · subst h1
      simp [storeSet]
    · simp [storeSet, if_neg h1, ih]

theorem sessionAt_storeSet_self (st : Store) (k : String) (v : SessionState) :
    sessionAt (storeSet st k v) k = v := by
  simp [sessionAt, storeGet_storeSet_self]

theorem sessionAt_of_get (st : Store) (sid : String) (s : SessionState)
    (h : storeGet st sid = some s) : sessionAt st sid = s := by
  simp [sessionAt, h]

theorem addedSession_turns (st : Store) (sid : String) (r : String) (c : List Char)
    (e : EmotionTag) (l : Language) :
    (addedSession st sid r c e l).turns = (sessionAt st sid).turns ++
      [{ role := r, content := c, emotion := e, language := l }] := by
  unfold addedSession
  by_cases h : r = "user" <;> simp [h]

theorem addedSession_is_crisis (st : Store) (sid : String) (r : String) (c : List Char)
    (e : EmotionTag) (l : Language) :
    (addedSession st sid r c e l).is_crisis = (sessionAt st sid).is_crisis := by
  unfold addedSession
  by_cases h : r = "user" <;> simp [h]

theorem get_or_create_present (sid : String) (st : Store) (s : SessionState)
    (h : sid ≠ "") (hs : storeGet st sid = some s) :
    get_or_create_session sid st = (s, st) := by
  unfold get_or_create_session
  rw [if_neg h, hs]

theorem add_turn_eq (st : Store) (sid : String) (r : String) (c : List Char)
    (e : EmotionTag) (l : Language) (h : sid ≠ "") :
    add_turn st sid r c e l =
      (addedSession st sid r c e l, storeSet st sid (addedSession st sid r c e l)) := by
  unfold add_turn addedSession get_or_create_session sessionAt create_session
  rw [if_neg h]
  cases hlk : storeGet st sid with
  | some s => simp
  | none => simp [storeSet_storeSet]

theorem storeGet_get_or_create_ne (sid sid0 : String) (st : Store) (h : sid0 ≠ sid) :
    storeGet (get_or_create_session sid st).2 sid0 = storeGet st sid0 := by
  unfold get_or_create_session create_session
  by_cases he : sid = ""
  · simp [he, storeGet_storeSet_ne _ _ _ _ (he ▸ h)]
  · rw [if_neg he]
    cases hlk : storeGet st sid with
    | some s => simp
    | none => simp [storeGet_storeSet_ne _ _ _ _ h]

theorem storeGet_add_turn_ne (st : Store) (sid sid0 : String) (r : String)
    (c : List Char) (e : EmotionTag) (l : Language) (h : sid0 ≠ sid) :
    storeGet (add_turn st sid r c e l).2 sid0 = storeGet st sid0 := by
  unfold add_turn
  simp only
  rw [storeGet_storeSet_ne _ _ _ _ h, storeGet_get_or_create_ne _ _ _ h]

theorem set_crisis_flag_absent (st : Store) (sid : String) (b : Bool)
    (h : storeGet st sid = none) : set_crisis_flag st sid b = st := by
  unfold set_crisis_flag
  rw [h]

theorem set_crisis_flag_present (st : Store) (sid : String) (b : Bool) (s : SessionState)
    (h : storeGet st sid = some s) :
    set_crisis_flag st sid b = storeSet st sid { s with is_crisis := b } := by
  unfold set_crisis_flag
  rw [h]

theorem storeGet_set_crisis_flag_ne (st : Store) (sid sid0 : String) (b : Bool)
    (h : sid0 ≠ sid) :
    storeGet (set_crisis_flag st sid b) sid0 = storeGet st sid0 := by
  unfold set_crisis_flag
  cases hlk : storeGet st sid with
  | none => rfl
  | some s => rw [storeGet_storeSet_ne _ _ _ _ h]

/-! ## Pipeline characterization lemmas -/

/-- The store left behind by the crisis branch of `process_message`. -/
def crisisStore (st : Store) (sid : String) (text : List Char) (lang : Language) : Store :=
  (add_turn
    (add_turn (set_crisis_flag st sid true) sid "user" text (detect_emotion_sync text) lang).2
    sid "assistant" (get_crisis_override lang.value) EmotionTag.neutral lang).2

theorem process_message_crisis (gen : List Msg → Option (List Char)) (st : Store)
    (text : List Char) (sid hint : String)
    (hc : (check_safety text (detect_language text hint).value).level = SafetyLevel.crisis) :
    process_message gen st text sid hint =
      { result := { response := get_crisis_override (detect_language text hint).value,
                    language := (detect_language text hint).value,
                    emotion := "crisis", is_crisis := true,
                    safety_response := some (get_crisis_override (detect_language text hint).value) },
        store := crisisStore st sid text (detect_language text hint),
        llm_called := false } := by
  unfold process_message crisisStore
  rw [if_pos hc]

theorem process_message_noncrisis (gen : List Msg → Option (List Char)) (st : Store)
    (text : List Char) (sid hint : String)
    (hc : ¬ (check_safety text (detect_language text hint).value).level = SafetyLevel.crisis) :
    ∃ resp,
      (process_message gen st text sid hint).store =
        (add_turn (add_turn (get_or_create_session sid st).2 sid "user" text
            (detect_emotion_sync text) (detect_language text hint)).2 sid
            "assistant" resp EmotionTag.neutral (detect_language text hint)).2 ∧
      (process_message gen st text sid hint).llm_called = true ∧
      (process_message gen st text sid hint).result.is_crisis = false := by
  unfold process_message
  rw [if_neg hc]
  exact ⟨_, rfl, rfl, rfl⟩

theorem crisisStore_records (st : Store) (sid : String) (text : List Char)
    (lang : Language) (h : sid ≠ "") :
    ∃ s rest, storeGet (crisisStore st sid text lang) sid = some s ∧
      s.turns = rest ++
        [{ role := "user", content := text,
           emotion := detect_emotion_sync text, language := lang },
         { role := "assistant", content := get_crisis_override lang.value,
           emotion := EmotionTag.neutral, language := lang }] := by
  unfold crisisStore
  simp only [add_turn_eq _ _ _ _ _ _ h, storeGet_storeSet_self]
  refine ⟨_, (sessionAt (set_crisis_flag st sid true) sid).turns, rfl, ?_⟩
  simp [addedSession_turns, sessionAt_storeSet_self]

theorem crisisStore_flag (st : Store) (sid : String) (text : List Char)
    (lang : Language) (s : SessionState) (h : sid ≠ "")
    (hs : storeGet st sid = some s) :
    ∃ s2, storeGet (crisisStore st sid text lang) sid = some s2 ∧
      s2.is_crisis = true := by
  unfold crisisStore
  simp only [set_crisis_flag_present _ _ _ _ hs, add_turn_eq _ _ _ _ _ _ h,
    storeGet_storeSet_self]
  refine ⟨_, rfl, ?_⟩
  simp [addedSession_is_crisis, sessionAt_storeSet_self]

theorem crisisStore_lookup_other (st : Store) (sid sid0 : String) (text : List Char)
    (lang : Language) (h : sid0 ≠ sid) :
    storeGet (crisisStore st sid text lang) sid0 = storeGet st sid0 := by
  unfold crisisStore
  rw [storeGet_add_turn_ne _ _ _ _ _ _ _ h, storeGet_add_turn_ne _ _ _ _ _ _ _ h,
    storeGet_set_crisis_flag_ne _ _ _ _ h]

/-- Once a session carries a true crisis flag, no later `process_message`
turn (for any session) clears it. -/
theorem process_message_flag_mono (gen : List Msg → Option (List Char)) (st : Store)
    (text : List Char) (sid0 hint : String) (h0 : sid0 ≠ "")
    (sid : String) (s : SessionState)
    (hs : storeGet st sid = some s) (hcr : s.is_crisis = true) :
    ∃ s2, storeGet (process_message gen st text sid0 hint).store sid = some s2 ∧
      s2.is_crisis = true := by
  by_cases hc : (check_safety text (detect_language text hint).value).level = SafetyLevel.crisis
  · rw [process_message_crisis gen st text sid0 hint hc]
    by_cases he : sid = sid0
    · subst he
      exact crisisStore_flag st sid text _ s h0 hs
    · refine ⟨s, ?_, hcr⟩
      rw [crisisStore_lookup_other _ _ _ _ _ he]
      exact hs
  · obtain ⟨resp, hst, -, -⟩ := process_message_noncrisis gen st text sid0 hint hc
    rw [hst]
    by_cases he : sid = sid0
    · subst he
      rw [get_or_create_present _ _ _ h0 hs]
      simp only [add_turn_eq _ _ _ _ _ _ h0, storeGet_storeSet_self]
      refine ⟨_, rfl, ?_⟩
      simp only [addedSession_is_crisis, sessionAt_storeSet_self,
        sessionAt_of_get _ _ _ hs]
      exact hcr
    · refine ⟨s, ?_, hcr⟩
      rw [storeGet_add_turn_ne _ _ _ _ _ _ _ he, storeGet_add_turn_ne _ _ _ _ _ _ _ he,
        storeGet_get_or_create_ne _ _ _ he]
      exact hs

/-! ## Concrete generation collaborators used by witnesses -/

/-- A generation collaborator that always fails (the `except` branch). -/
def gen_none : List Msg → Option (List Char) := fun _ => none

/-- A generation collaborator that always returns a fixed reply. -/
def gen_fixed : List Msg → Option (List Char) := fun _ => some (("ok").data)

/-! ## Claim C1 -/

/-- C1: for every input on which `check_safety` reports CRISIS,
`process_message` never invokes the LLM generation collaborator (its outcome
is the same for any two collaborators and `llm_called` is `false`), it
records the user turn with the fast emotion tag and the fixed crisis script
as the assistant turn, and it returns `is_crisis = true` with the crisis
script as the response. -/
theorem claim_C1_crisis_bypasses_generation
    (gen gen2 : List Msg → Option (List Char)) (st : Store) (text : List Char)
    (sid hint : String) (hsid : sid ≠ "")
    (hc : (check_safety text (detect_language text hint).value).level = SafetyLevel.crisis) :
    process_message gen st text sid hint = process_message gen2 st text sid hint ∧
    (process_message gen st text sid hint).llm_called = false ∧
    (process_message gen st text sid hint).result.is_crisis = true ∧
    (process_message gen st text sid hint).result.response =
      get_crisis_override (detect_language text hint).value ∧
    ∃ s rest, storeGet (process_message gen st text sid hint).store sid = some s ∧
      s.turns = rest ++
        [{ role := "user", content := text, emotion := detect_emotion_sync text,
           language := detect_language text hint },
         { role := "assistant",
           content := get_crisis_override (detect_language text hint).value,
           emotion := EmotionTag.neutral, language := detect_language text hint }] := by
  have h1 := process_message_crisis gen st text sid hint hc
  have h2 := process_message_crisis gen2 st text sid hint hc
  refine ⟨h1.trans h2.symm, by rw [h1], by rw [h1], by rw [h1], ?_⟩
  rw [h1]
  exact crisisStore_records st sid text _ hsid

/-- Witness for C1 at the crisis input "i want to die". -/
theorem claim_C1_witness :
    process_message gen_none ([]) (("i want to die").data) "s1" "en" =
      process_message gen_fixed ([]) (("i want to die").data) "s1" "en" ∧
    (process_message gen_none ([]) (("i want to die").data) "s1" "en").llm_called = false ∧
    (process_message gen_none ([]) (("i want to die").data) "s1" "en").result.is_crisis = true := by
  have h := claim_C1_crisis_bypasses_generation gen_none gen_fixed ([])
    (("i want to die").data) "s1" "en" (by decide) (by decide)
  exact ⟨h.1, h.2.1, h.2.2.1⟩

/-! ## Claim C3 -/

/-- C3 counterexample: a crisis on the very first turn of a not-yet-existing
session does *not* set the session crisis flag: `set_crisis_flag` runs
before the session is created by `add_turn`, so the write is lost and the
freshly created session carries `is_crisis = false`. -/
theorem claim_C3_counterexample :
    (process_message gen_none ([]) (("i want to die").data) "s1" "en").result.is_crisis = true ∧
    (storeGet (process_message gen_none ([]) (("i want to die").data) "s1" "en").store "s1").map
      (fun s => s.is_crisis) = some false ∧
    ¬ ((storeGet (process_message gen_none ([]) (("i want to die").data) "s1" "en").store "s1").map
      (fun s => s.is_crisis) = some true) := by
  refine ⟨by decide, by decide, by decide⟩

/-- C3 amended: (1) on a crisis turn for a session that already exists in
the store, the crisis flag becomes true; (2) once a session carries a true
flag, any subsequently processed turn — for this or any other session —
leaves it true.  (When the crisis occurs on the very first turn of a
not-yet-existing session, the flag write is silently lost, see the
counterexample.) -/
theorem claim_C3_flag_set_and_sticky :
    (∀ (gen : List Msg → Option (List Char)) (st : Store) (text : List Char)
       (sid hint : String) (s : SessionState), sid ≠ "" → storeGet st sid = some s →
       (check_safety text (detect_language text hint).value).level = SafetyLevel.crisis →
       ∃ s2, storeGet (process_message gen st text sid hint).store sid = some s2 ∧
         s2.is_crisis = true) ∧
    (∀ (gen : List Msg → Option (List Char)) (st : Store) (text : List Char)
       (sid0 hint sid : String) (s : SessionState), sid0 ≠ "" →
       storeGet st sid = some s → s.is_crisis = true →
       ∃ s2, storeGet (process_message gen st text sid0 hint).store sid = some s2 ∧
         s2.is_crisis = true) := by
  constructor
  · intro gen st text sid hint s h hs hc
    rw [process_message_crisis gen st text sid hint hc]
    exact crisisStore_flag st sid text _ s h hs
  · intro gen st text sid0 hint sid s h0 hs hcr
    exact process_message_flag_mono gen st text sid0 hint h0 sid s hs hcr

/-- Witness for C3: the flag is set on a crisis turn of an existing session,
and survives a later safe turn of a different session. -/
theorem claim_C3_witness :
    (∃ s2, storeGet (process_message gen_none (create_session "s1" ([])).2
        (("i want to die").data) "s1" "en").store "s1" = some s2 ∧ s2.is_crisis = true) ∧
    (∃ s2, storeGet (process_message gen_none
        ([("s1", { session_id := "s1", turns := [], language_preference := Language.english,
                   current_emotion := EmotionTag.neutral, emotion_trajectory := [],
                   is_crisis := true })])
        (("hello there").data) "s2" "en").store "s1" = some s2 ∧ s2.is_crisis = true) := by
  constructor
  · exact claim_C3_flag_set_and_sticky.1 gen_none (create_session "s1" ([])).2
      (("i want to die").data) "s1" "en" (freshSession "s1") (by decide) (by decide) (by decide)
  · exact claim_C3_flag_set_and_sticky.2 gen_none
      ([("s1", { session_id := "s1", turns := [], language_preference := Language.english,
                 current_emotion := EmotionTag.neutral, emotion_trajectory := [],
                 is_crisis := true })])
      (("hello there").data) "s2" "en" "s1"
      ({ session_id := "s1", turns := [], language_preference := Language.english,
         current_emotion := EmotionTag.neutral, emotion_trajectory := [],
         is_crisis := true }) (by decide) (by decide) (by decide)

/-! ## Claim C4 -/

/-- C4 counterexample: for "Main khudkushi karna chahta hoon" with language
hint "en", `process_message` does return `is_crisis = true`, but the
response it returns is the English crisis override script, not the
Hindi-script one: the hint is trusted by `detect_language`, and
`get_crisis_override` selects by detected language only, ignoring that the
matched keyword was Hindi. -/
theorem claim_C4_counterexample :
    (process_message gen_none ([]) (("Main khudkushi karna chahta hoon").data) "s1" "en").result.response
      = CRISIS_OVERRIDE_EN ∧
    CRISIS_OVERRIDE_EN ≠ CRISIS_OVERRIDE_HI ∧
    (process_message gen_none ([]) (("Main khudkushi karna chahta hoon").data) "s1" "en").result.response
      ≠ CRISIS_RESPONSE_HI := by
  refine ⟨by decide, by decide, by decide⟩

/-- C4 amended: the input is detected as a crisis despite the English hint
(`is_crisis = true`), and `check_safety` itself selects the Hindi-script
response for it, but `process_message` discards that selection and returns
the English crisis override script, because the hint "en" is trusted
verbatim by `detect_language` and `get_crisis_override` looks only at the
detected language. -/
theorem claim_C4_amended :
    (process_message gen_none ([]) (("Main khudkushi karna chahta hoon").data) "s1" "en").result.is_crisis
      = true ∧
    (check_safety (("Main khudkushi karna chahta hoon").data)
        (detect_language (("Main khudkushi karna chahta hoon").data) "en").value).crisis_response
      = some CRISIS_RESPONSE_HI ∧
    (process_message gen_none ([]) (("Main khudkushi karna chahta hoon").data) "s1" "en").result.response
      = CRISIS_OVERRIDE_EN := by
  refine ⟨by decide, by decide, by decide⟩

/-! ## Claim C9 -/

/-- C9 counterexample: `create_session` on an id already present in the
store does not return the existing session: it returns a fresh empty
session and overwrites the stored one (the session created below holds one
turn; after `create_session` the store holds a session with none). -/
theorem claim_C9_counterexample :
    (create_session "s1" ((add_turn ([]) "s1" "user" ("hello").data
        EmotionTag.neutral Language.english).2)).1.turns = [] ∧
    (storeGet ((add_turn ([]) "s1" "user" ("hello").data
        EmotionTag.neutral Language.english).2) "s1").map (fun s => s.turns.length) = some 1 ∧
    (storeGet (create_session "s1" ((add_turn ([]) "s1" "user" ("hello").data
        EmotionTag.neutral Language.english).2)).2 "s1").map (fun s => s.turns.length) = some 0 := by
  refine ⟨by decide, by decide, by decide⟩

/-- C9 amended: the operation that is idempotent on a supplied id is
`get_or_create_session`, not `create_session`: when the id is present,
`get_or_create_session` returns the existing session with the store
unchanged, while `create_session` always installs a fresh empty session
under the id, overwriting whatever was there. -/
theorem claim_C9_get_or_create_idempotent (sid : String) (st : Store) (s : SessionState)
    (h : sid ≠ "") (hs : storeGet st sid = some s) :
    get_or_create_session sid st = (s, st) ∧
    (create_session sid st).1 = freshSession sid ∧
    storeGet (create_session sid st).2 sid = some (freshSession sid) :=
  ⟨get_or_create_present sid st s h hs, rfl, storeGet_storeSet_self st sid (freshSession sid)⟩

/-- Witness for C9 on a one-session store. -/
theorem claim_C9_witness :
    get_or_create_session "s1" (create_session "s1" ([])).2 =
      (freshSession "s1", (create_session "s1" ([])).2) ∧
    (create_session "s1" (create_session "s1" ([])).2).1 = freshSession "s1" ∧
    storeGet (create_session "s1" (create_session "s1" ([])).2).2 "s1" =
      some (freshSession "s1") := by
  exact claim_C9_get_or_create_idempotent "s1" (create_session "s1" ([])).2
    (freshSession "s1") (by decide) (by decide)

/-! ## Claim C10 -/

/-- C10: `set_crisis_flag` on a session id absent from the store is a
silent no-op: it is total (returns a store rather than raising), leaves the
store exactly unchanged, and in particular creates no session for that id —
the flag write is lost. -/
theorem claim_C10_set_crisis_flag_absent_noop (st : Store) (sid : String) (b : Bool)
    (h : storeGet st sid = none) :
    set_crisis_flag st sid b = st ∧
    get_session (set_crisis_flag st sid b) sid = none := by
  refine ⟨set_crisis_flag_absent st sid b h, ?_⟩
  rw [show get_session (set_crisis_flag st sid b) sid =
        storeGet (set_crisis_flag st sid b) sid from rfl,
      set_crisis_flag_absent st sid b h]
  exact h

/-- Witness for C10 on a store holding an unrelated session. -/
theorem claim_C10_witness :
    set_crisis_flag (create_session "other" ([])).2 "absent" true =
      (create_session "other" ([])).2 ∧
    get_session (set_crisis_flag (create_session "other" ([])).2 "absent" true) "absent" = none := by
  exact claim_C10_set_crisis_flag_absent_noop (create_session "other" ([])).2
    "absent" true (by decide)

/-! ## Normalization support lemmas for the safety claims -/

/-- A whitespace character is unchanged by ASCII lowercasing. -/
theorem pyToLower_space (c : Char) (h : pyIsSpace c = true) : pyToLower c = c := by
  unfold pyToLower
  rw [if_neg]
  rintro ⟨h1, -⟩
  simp only [pyIsSpace, Bool.or_eq_true, decide_eq_true_eq] at h
  exact absurd h1 (by omega)

/-- If every character of `l` is whitespace, `pyStrip` empties it. -/
theorem pyStrip_of_all_space (l : List Char) (h : ∀ c ∈ l, pyIsSpace c = true) :
    pyStrip l = [] := by
  unfold pyStrip
  rw [List.dropWhile_eq_nil_iff.mpr h]
  rfl

/-- If `pyStrip` empties `l`, every character of `l` is whitespace. -/
theorem all_space_of_pyStrip (l : List Char) (h : pyStrip l = []) :
    ∀ c ∈ l, pyIsSpace c = true := by
  unfold pyStrip at h
  rw [List.reverse_eq_nil_iff, List.dropWhile_eq_nil_iff] at h
  intro c hc
  rcases List.mem_append.mp ((List.takeWhile_append_dropWhile (p := pyIsSpace) (l := l)) ▸ hc) with h1 | h1
  · exact List.mem_takeWhile_imp h1
  · exact h c (List.mem_reverse.mpr h1)

/-- If the normalized text is non-empty, the raw-text emptiness guard of
`check_safety` / `detect_language` is false. -/
theorem guard_false_of_normalize_ne_nil (text : List Char)
    (hne : normalize_text text ≠ []) :
    (text.isEmpty || (pyStrip text).isEmpty) = false := by
  cases he : text.isEmpty
  · cases hs : (pyStrip text).isEmpty
    · rfl
    · exfalso
      apply hne
      have hsp : ∀ c ∈ text, pyIsSpace c = true :=
        all_space_of_pyStrip text (List.isEmpty_iff.mp hs)
      have : ∀ c ∈ text.map pyToLower, pyIsSpace c = true := by
        intro c hc
        rcases List.mem_map.mp hc with ⟨c0, hc0, rfl⟩
        rw [pyToLower_space c0 (hsp c0 hc0)]
        exact hsp c0 hc0
      unfold normalize_text
      rw [pyStrip_of_all_space _ this]
      rfl
  · exfalso
    apply hne
    rw [List.isEmpty_iff.mp he]
    rfl

/-- Every crisis keyword is a non-empty string. -/
theorem crisis_keywords_ne_nil :
    ∀ kw ∈ CRISIS_KEYWORDS_EN ++ CRISIS_KEYWORDS_HI, kw ≠ ([] : List Char) := by
  decide

/-- If some keyword matches the normalized text, the normalized text is
non-empty. -/
theorem normalize_ne_nil_of_match (text kw : List Char) (hkwne : kw ≠ [])
    (hmatch : isSubstr (kw.map pyToLower) (normalize_text text) = true) :
    normalize_text text ≠ [] := by
  intro h0
  rw [h0] at hmatch
  have hempty : (kw.map pyToLower).isEmpty = true := hmatch
  exact hkwne (List.map_eq_nil_iff.mp (List.isEmpty_iff.mp hempty))

/-! ## Claim C2 -/

/-- C2: for every text in which some phrase of either the English or the
Hindi crisis keyword list occurs (as a lowercased substring of the
normalized text, exactly the containment `check_safety` tests), and for
every declared language, `check_safety` reports level CRISIS with a
non-empty matched-keyword list, a non-null response and a non-null helpline
payload — even when the declared language contradicts the language of the
matched phrase. -/
theorem claim_C2_crisis_keywords_cross_language (text : List Char) (language : String)
    (kw : List Char) (hkw : kw ∈ CRISIS_KEYWORDS_EN ++ CRISIS_KEYWORDS_HI)
    (hmatch : isSubstr (kw.map pyToLower) (normalize_text text) = true) :
    (check_safety text language).level = SafetyLevel.crisis ∧
    (check_safety text language).matched_keywords ≠ [] ∧
    (check_safety text language).crisis_response ≠ none ∧
    (check_safety text language).helplines ≠ none := by
  have hkwne : kw ≠ [] := crisis_keywords_ne_nil kw hkw
  have hne : normalize_text text ≠ [] := normalize_ne_nil_of_match text kw hkwne hmatch
  have hcond := guard_false_of_normalize_ne_nil text hne
  have hmem : kw ∈ check_keywords text CRISIS_KEYWORDS_EN ++ check_keywords text CRISIS_KEYWORDS_HI := by
    rcases List.mem_append.mp hkw with h | h
    · exact List.mem_append.mpr (Or.inl (List.mem_filter.mpr ⟨h, hmatch⟩))
    · exact List.mem_append.mpr (Or.inr (List.mem_filter.mpr ⟨h, hmatch⟩))
  have hisEmpty : (check_keywords text CRISIS_KEYWORDS_EN ++
      check_keywords text CRISIS_KEYWORDS_HI).isEmpty = false := by
    cases hE : (check_keywords text CRISIS_KEYWORDS_EN ++
        check_keywords text CRISIS_KEYWORDS_HI).isEmpty
    · rfl
    · rw [List.isEmpty_iff.mp hE] at hmem
      exact absurd hmem (List.not_mem_nil kw)
  refine ⟨?_, ?_, ?_, ?_⟩
  · simp only [check_safety, hcond, Bool.false_eq_true, if_false, hisEmpty]
  · simp only [check_safety, hcond, Bool.false_eq_true, if_false, hisEmpty]
    exact List.ne_nil_of_mem hmem
  · simp only [check_safety, hcond, Bool.false_eq_true, if_false, hisEmpty]
    simp
  · simp only [check_safety, hcond, Bool.false_eq_true, if_false, hisEmpty]
    simp

/-- Witness for C2: an English crisis phrase with a contradicting declared
language "hi" (and messy casing/whitespace in the input). -/
theorem claim_C2_witness :
    (check_safety (("I want to KILL  myself now").data) "hi").level = SafetyLevel.crisis ∧
    (check_safety (("I want to KILL  myself now").data) "hi").matched_keywords ≠ [] ∧
    (check_safety (("I want to KILL  myself now").data) "hi").crisis_response ≠ none ∧
    (check_safety (("I want to KILL  myself now").data) "hi").helplines ≠ none := by
  exact claim_C2_crisis_keywords_cross_language (("I want to KILL  myself now").data) "hi"
    (("kill myself").data) (by decide) (by decide)

/-! ## Claim C5 -/

/-- C5: a text matching both a crisis-tier phrase and a warning-tier phrase
is classified CRISIS, never WARNING: the crisis tier strictly dominates. -/
theorem claim_C5_crisis_dominates_warning (text : List Char) (language : String)
    (kwc kww : List Char)
    (hkwc : kwc ∈ CRISIS_KEYWORDS_EN ++ CRISIS_KEYWORDS_HI)
    (hmatchc : isSubstr (kwc.map pyToLower) (normalize_text text) = true)
    (_hkww : kww ∈ WARNING_KEYWORDS_EN ++ WARNING_KEYWORDS_HI)
    (_hmatchw : isSubstr (kww.map pyToLower) (normalize_text text) = true) :
    (check_safety text language).level = SafetyLevel.crisis ∧
    (check_safety text language).level ≠ SafetyLevel.warning := by
  have h := claim_C2_crisis_keywords_cross_language text language kwc hkwc hmatchc
  exact ⟨h.1, by rw [h.1]; decide⟩

/-- Witness for C5: "i want to die and nothing matters" contains the crisis
phrase "want to die" and the warning phrase "nothing matters". -/
theorem claim_C5_witness :
    (check_safety (("i want to die and nothing matters").data) "en").level = SafetyLevel.crisis ∧
    (check_safety (("i want to die and nothing matters").data) "en").level ≠ SafetyLevel.warning := by
  exact claim_C5_crisis_dominates_warning (("i want to die and nothing matters").data) "en"
    (("want to die").data) (("nothing matters").data)
    (by decide) (by decide) (by decide) (by decide)

/-! ## Claim C6 -/

/-- C6: whenever the upstream hint normalizes (lowercase, strip) to a
recognized language code, `detect_language` returns the hint\x27s mapped
language, regardless of the text content:
"en"/"english" map to English, "hi"/"hindi" to Hindi, and
"hi-en"/"hinglish"/"hi-eng" to Hinglish. -/
theorem claim_C6_hint_trusted_verbatim (text : List Char) (stt_tag : String) :
    (pyStrip ((stt_tag.data).map pyToLower) = ("en").data ∨
       pyStrip ((stt_tag.data).map pyToLower) = ("english").data →
     detect_language text stt_tag = Language.english) ∧
    (pyStrip ((stt_tag.data).map pyToLower) = ("hi").data ∨
       pyStrip ((stt_tag.data).map pyToLower) = ("hindi").data →
     detect_language text stt_tag = Language.hindi) ∧
    (pyStrip ((stt_tag.data).map pyToLower) = ("hi-en").data ∨
       pyStrip ((stt_tag.data).map pyToLower) = ("hinglish").data ∨
       pyStrip ((stt_tag.data).map pyToLower) = ("hi-eng").data →
     detect_language text stt_tag = Language.hinglish) := by
  have hne_of : ∀ (w : List Char), w ≠ [] →
      pyStrip ((stt_tag.data).map pyToLower) = w → stt_tag ≠ "" := by
    intro w hw hst he
    apply hw
    rw [← hst]
    subst he
    rfl
  refine ⟨?_, ?_, ?_⟩
  · rintro (ht | ht) <;>
    · have htag : ¬ stt_tag = "" := hne_of _ (by decide) ht
      unfold detect_language
      rw [if_neg htag, ht]
      simp
  · rintro (ht | ht) <;>
    · have htag : ¬ stt_tag = "" := hne_of _ (by decide) ht
      unfold detect_language
      rw [if_neg htag, ht]
      simp
  · rintro (ht | ht | ht) <;>
    · have htag : ¬ stt_tag = "" := hne_of _ (by decide) ht
      unfold detect_language
      rw [if_neg htag, ht]
      simp
/-- Witness for C6: the hint " HI " overrides plainly English text. -/
theorem claim_C6_witness :
    detect_language (("hello my friend").data) " HI " = Language.hindi := by
  exact (claim_C6_hint_trusted_verbatim (("hello my friend").data) " HI ").2.1
    (Or.inl (by decide))

/-! ## Claim C7 -/

/-- Whether a normalized upstream tag is one of the recognized codes of
`detect_language`. -/
def recognizedTag (t : List Char) : Bool :=
  t = ("en").data ∨ t = ("english").data ∨ t = ("hi").data ∨ t = ("hindi").data ∨
    t = ("hi-en").data ∨ t = ("hinglish").data ∨ t = ("hi-eng").data

/-- C7 counterexample: for empty text and the recognized hint "hi",
`detect_language` returns Hindi, not English — the hint outranks the
empty-input rule. -/
theorem claim_C7_counterexample :
    detect_language ([]) "hi" = Language.hindi ∧
    ¬ detect_language ([]) "hi" = Language.english := by
  refine ⟨by decide, by decide⟩

/-- C7 amended: `detect_language` is a total function, and on empty or
whitespace-only input it returns English provided the upstream hint is not a
recognized language code (a recognized hint takes priority over the
empty-input rule and yields the hint\x27s language, see C6). -/
theorem claim_C7_empty_text_english (text : List Char) (stt_tag : String)
    (hempty : pyStrip text = [])
    (htag : recognizedTag (pyStrip ((stt_tag.data).map pyToLower)) = false) :
    detect_language text stt_tag = Language.english := by
  have hsplit : ∀ (P : Prop) [Decidable P], (decide P || false) = false → ¬ P := by
    intro P _ h
    simpa using h
  unfold recognizedTag at htag
  rw [decide_eq_false_iff_not] at htag
  push_neg at htag
  obtain ⟨h1, h2, h3, h4, h5, h6, h7⟩ := htag
  unfold detect_language
  have hguard : (text.isEmpty || (pyStrip text).isEmpty) = true := by
    rw [hempty]
    simp
  by_cases he : stt_tag = ""
  · rw [if_pos he, hguard]
    simp
  · rw [if_neg he]
    rw [if_neg (by tauto : ¬ (pyStrip ((stt_tag.data).map pyToLower) = ("en").data ∨
          pyStrip ((stt_tag.data).map pyToLower) = ("english").data)),
        if_neg (by tauto : ¬ (pyStrip ((stt_tag.data).map pyToLower) = ("hi").data ∨
          pyStrip ((stt_tag.data).map pyToLower) = ("hindi").data)),
        if_neg (by tauto : ¬ (pyStrip ((stt_tag.data).map pyToLower) = ("hi-en").data ∨
          pyStrip ((stt_tag.data).map pyToLower) = ("hinglish").data ∨
          pyStrip ((stt_tag.data).map pyToLower) = ("hi-eng").data))]
    rw [hguard]
    simp

/-- Witness for C7 on whitespace-only input with an unrecognized hint. -/
theorem claim_C7_witness :
    detect_language (("   ").data) "xx" = Language.english := by
  exact claim_C7_empty_text_english (("   ").data) "xx" (by decide) (by decide)

/-! ## Claim C8 -/

/-- The turn record `add_turn` appends for a user message with the default
emotion/language arguments. -/
def userTurnOf (m : List Char) : ConversationTurn :=
  { role := "user", content := m, emotion := EmotionTag.neutral,
    language := Language.english }

/-- Append a sequence of user turns to a session, one `add_turn` each. -/
def appendUserTurns (st : Store) (sid : String) (msgs : List (List Char)) : Store :=
  msgs.foldl (fun s m => (add_turn s sid "user" m EmotionTag.neutral Language.english).2) st

theorem appendUserTurns_turns (sid : String) (h : sid ≠ "") :
    ∀ (msgs : List (List Char)) (st : Store),
      (sessionAt (appendUserTurns st sid msgs) sid).turns =
        (sessionAt st sid).turns ++ msgs.map userTurnOf := by
  intro msgs
  induction msgs with
  | nil => intro st; simp [appendUserTurns]
  | cons m ms ih =>
    intro st
    rw [show appendUserTurns st sid (m :: ms) =
          appendUserTurns ((add_turn st sid "user" m EmotionTag.neutral Language.english).2)
            sid ms from rfl, ih]
    simp only [add_turn_eq _ _ _ _ _ _ h, sessionAt_storeSet_self, addedSession_turns]
    simp [userTurnOf, List.append_assoc]

theorem appendUserTurns_lookup (sid : String) (h : sid ≠ "") :
    ∀ (msgs : List (List Char)) (st : Store), msgs ≠ [] →
      storeGet (appendUserTurns st sid msgs) sid =
        some (sessionAt (appendUserTurns st sid msgs) sid) := by
  intro msgs
  induction msgs with
  | nil => intro st h0; exact absurd rfl h0
  | cons m ms ih =>
    intro st _
    by_cases hms : ms = []
    · subst hms
      rw [show appendUserTurns st sid [m] =
            (add_turn st sid "user" m EmotionTag.neutral Language.english).2 from rfl]
      simp only [add_turn_eq _ _ _ _ _ _ h]
      rw [storeGet_storeSet_self, sessionAt_storeSet_self]
    · rw [show appendUserTurns st sid (m :: ms) =
            appendUserTurns ((add_turn st sid "user" m EmotionTag.neutral Language.english).2)
              sid ms from rfl]
      exact ih _ hms

/-- C8 counterexample: the claim quantifies over every `k < N`, but at
`k = 0` the Python slice `turns[-0:]` is `turns[0:]` — the whole history —
so `get_history` with `max_turns = 0` returns every turn, not the last
zero turns. -/
theorem claim_C8_counterexample :
    get_history (appendUserTurns ([]) "s1" [("hi").data]) "s1" 0 =
      [(("user" : String), ("hi").data)] ∧
    get_history (appendUserTurns ([]) "s1" [("hi").data]) "s1" 0 ≠ [] := by
  refine ⟨by decide, by decide⟩

/-- C8 amended: after appending N user turns to a session, reading history
with `max_turns = k` for `0 < k < N` returns exactly the last k appended
turns as (role, content) pairs, oldest first.  (At `k = 0` the Python
negative-index slice degenerates and the whole history is returned.) -/
theorem claim_C8_history_roundtrip (st : Store) (sid : String)
    (msgs : List (List Char)) (k : Nat) (h : sid ≠ "") (hk0 : 0 < k)
    (hkN : k < msgs.length) :
    get_history (appendUserTurns st sid msgs) sid k =
      (msgs.drop (msgs.length - k)).map (fun m => (("user" : String), m)) := by
  have hmsgs : msgs ≠ [] := by
    intro h0
    rw [h0] at hkN
    simp at hkN
  unfold get_history
  rw [appendUserTurns_lookup sid h msgs st hmsgs]
  show (pySliceLast (sessionAt (appendUserTurns st sid msgs) sid).turns k).map
    (fun t => (t.role, t.content)) = _
  rw [appendUserTurns_turns sid h msgs st]
  unfold pySliceLast
  rw [if_neg (by omega : ¬ k = 0)]
  have hlen : ((sessionAt st sid).turns ++ msgs.map userTurnOf).length - k =
      (sessionAt st sid).turns.length + ((msgs.map userTurnOf).length - k) := by
    simp only [List.length_append, List.length_map]
    omega
  rw [hlen, List.drop_append, ← List.map_drop, List.map_map]
  have hfun : ((fun t : ConversationTurn => (t.role, t.content)) ∘ userTurnOf) =
      (fun m : List Char => (("user" : String), m)) := by
    funext m
    simp [userTurnOf, Function.comp]
  rw [hfun, List.length_map]

/-- Witness for C8: three turns, history capped at the most recent one. -/
theorem claim_C8_witness :
    get_history (appendUserTurns ([]) "s1" [("a").data, ("b").data, ("c").data]) "s1" 1 =
      [(("user" : String), ("c").data)] := by
  have h := claim_C8_history_roundtrip ([]) "s1"
    [("a").data, ("b").data, ("c").data] 1 (by decide) (by decide) (by decide)
  exact h.trans (by decide)

end Mana
